import Mathlib

set_option autoImplicit false

/-!
Verification of the site-shell front-end toolkit.

Part 1 models the telemetry façade (`useTelemetry`). The implementation file
`src/hooks/useTelemetry.ts` is not part of the repository snapshot — only its
stories and the hooks index that re-exports it are — so every telemetry
definition below is modelled from the specification (section 3, 4.1, 6 and 7
of the design document) and carries a doc comment saying so.

Part 2 embeds the two `ContentCard` implementations that are present in the
snapshot (the enhanced one with loading/author/bookmark support, and the
basic one), as functions from props to a rendered-content value.
-/

/-- Modelled from the spec: `EventProperties`, a mapping of string keys to
values (`src/hooks/useTelemetry.ts` is missing from the snapshot). The
mapping is represented as an association list; the first entry for a key is
the visible binding. The value type `V` is a parameter. -/
abbrev Props (V : Type) : Type := List (String × V)

/-- Lookup of a key in a property mapping: the first binding wins. -/
def lookupProp {V : Type} (k : String) : Props V → Option V
  | [] => none
  | (k2, v) :: rest => if k2 = k then some v else lookupProp k rest

/-- Modelled from the spec: merging `defaultProperties` with call-site
properties, call-site values winning on key collision. The call-site list is
put in front so that its binding for a key shadows the default binding,
matching the observable behaviour of a JS object spread of the defaults
followed by the call-site properties. -/
def mergeProps {V : Type} (defaults callSite : Props V) : Props V :=
  callSite ++ defaults

/-- Modelled from the spec: `ErrorContext` is `message` plus optional `stack`
plus arbitrary extra fields. -/
structure ErrorContext (V : Type) where
  message : String
  stack : Option String := none
  extra : Props V := []
  deriving DecidableEq

/-- Modelled from the spec: `trackError` accepts either a native error object
(message and optional stack) or a plain structured record. -/
inductive ErrorInput (V : Type) where
  | native (message : String) (stack : Option String)
  | structured (ctx : ErrorContext V)

/-- Modelled from the spec: the provider capability interface with four
operations. Each operation may fail internally; a failure is modelled as an
`Except.error` result (the analogue of a thrown exception). -/
structure ProviderImpl (V : Type) where
  trackEvent : String → Props V → Except String Unit
  trackError : ErrorContext V → Except String Unit
  trackPageView : Props V → Except String Unit
  identify : String → Props V → Except String Unit

/-- Modelled from the spec: the built-in no-op/console-log provider stub used
when no provider is supplied. It never fails. -/
def defaultProvider (V : Type) : ProviderImpl V :=
  { trackEvent := fun _ _ => Except.ok ()
  , trackError := fun _ => Except.ok ()
  , trackPageView := fun _ => Except.ok ()
  , identify := fun _ _ => Except.ok () }

/-- Modelled from the spec: the resolved `TelemetryConfig`, immutable per hook
instantiation. -/
structure TelemetryConfig (V : Type) where
  enabled : Bool
  debug : Bool
  provider : ProviderImpl V
  defaultProperties : Props V
  trackErrors : Bool

/-- Modelled from the spec: the consumer-facing options record, in which every
recognized option may be omitted (`none`). -/
structure TelemetryOptions (V : Type) where
  enabled : Option Bool := none
  debug : Option Bool := none
  provider : Option (ProviderImpl V) := none
  defaultProperties : Option (Props V) := none
  trackErrors : Option Bool := none

/-- Modelled from the spec: resolution of omitted options to their documented
defaults — `enabled` true, `debug` false, provider the built-in stub,
`defaultProperties` empty, `trackErrors` false. -/
def resolveConfig {V : Type} (opts : TelemetryOptions V) : TelemetryConfig V :=
  { enabled := opts.enabled.getD true
  , debug := opts.debug.getD false
  , provider := opts.provider.getD (defaultProvider V)
  , defaultProperties := opts.defaultProperties.getD []
  , trackErrors := opts.trackErrors.getD false }

/-- Observable effects of a façade operation: the four provider invocations,
client-side diagnostic output, and (de)registration of the global
error listener. -/
inductive TelemetryEffect (V : Type) where
  | callTrackEvent (name : String) (props : Props V)
  | callTrackError (ctx : ErrorContext V)
  | callTrackPageView (props : Props V)
  | callIdentify (userId : String) (traits : Props V)
  | debugLog (message : String)
  | addErrorListener
  | removeErrorListener
  deriving DecidableEq

/-- Diagnostic output emitted alongside a forwarded call when `debug` is on. -/
def debugTrace {V : Type} (cfg : TelemetryConfig V) (msg : String) :
    List (TelemetryEffect V) :=
  if cfg.debug then [TelemetryEffect.debugLog msg] else []

/-- Modelled from the spec: `trackEvent(name, properties?)` merges
`defaultProperties` with the call-site properties (call-site overrides
defaults), no-ops if disabled, else forwards to the provider; if `debug`,
also emits a diagnostic log. The result is the list of observable effects. -/
def trackEvent {V : Type} (cfg : TelemetryConfig V) (name : String)
    (props : Props V) : List (TelemetryEffect V) :=
  if cfg.enabled then
    TelemetryEffect.callTrackEvent name (mergeProps cfg.defaultProperties props)
      :: debugTrace cfg ("telemetry trackEvent " ++ name)
  else []

/-- Modelled from the spec: normalization of an error input to
`ErrorContext`. A native error keeps its message and stack and takes the
extra fields; a structured record keeps its own fields with the extra fields
merged in (call-site extras winning). -/
def normalizeError {V : Type} : ErrorInput V → Props V → ErrorContext V
  | ErrorInput.native m s, extra => { message := m, stack := s, extra := extra }
  | ErrorInput.structured c, extra =>
      { message := c.message, stack := c.stack, extra := mergeProps c.extra extra }

/-- Modelled from the spec: `trackError(error, extra?)` normalizes the input,
no-ops if disabled, forwards to the provider, debug-logs. -/
def trackError {V : Type} (cfg : TelemetryConfig V) (e : ErrorInput V)
    (extra : Props V) : List (TelemetryEffect V) :=
  if cfg.enabled then
    TelemetryEffect.callTrackError (normalizeError e extra)
      :: debugTrace cfg "telemetry trackError"
  else []

/-- Modelled from the spec: `trackPageView(properties)` merges defaults,
forwards, debug-logs; no-ops if disabled. -/
def trackPageView {V : Type} (cfg : TelemetryConfig V) (props : Props V) :
    List (TelemetryEffect V) :=
  if cfg.enabled then
    TelemetryEffect.callTrackPageView (mergeProps cfg.defaultProperties props)
      :: debugTrace cfg "telemetry trackPageView"
  else []

/-- Modelled from the spec: `identify(userId, traits?)` forwards the user id
and the trait mapping to the provider unchanged; no-ops if disabled. -/
def identify {V : Type} (cfg : TelemetryConfig V) (userId : String)
    (traits : Props V) : List (TelemetryEffect V) :=
  if cfg.enabled then
    TelemetryEffect.callIdentify userId traits
      :: debugTrace cfg ("telemetry identify " ++ userId)
  else []

/-- Modelled from the spec: provider exceptions are caught and discarded so
that telemetry never crashes the host application. -/
def swallowProviderResult (r : Except String Unit) : Except String Unit :=
  match r with
  | Except.ok _ => Except.ok ()
  | Except.error _ => Except.ok ()

/-- Modelled from the spec: the façade `trackEvent` as seen by its caller —
it invokes the active provider on the merged properties and swallows any
provider failure, so its own result never carries an exception. -/
def dispatchTrackEvent {V : Type} (cfg : TelemetryConfig V) (name : String)
    (props : Props V) : Except String Unit :=
  if cfg.enabled then
    swallowProviderResult
      (cfg.provider.trackEvent name (mergeProps cfg.defaultProperties props))
  else Except.ok ()

/-- Recognizer for provider invocations in an effect trace. -/
def isProviderCall {V : Type} : TelemetryEffect V → Bool
  | TelemetryEffect.callTrackEvent _ _ => true
  | TelemetryEffect.callTrackError _ => true
  | TelemetryEffect.callTrackPageView _ => true
  | TelemetryEffect.callIdentify _ _ => true
  | _ => false

/-- Recognizer for diagnostic output in an effect trace. -/
def isDebugLog {V : Type} : TelemetryEffect V → Bool
  | TelemetryEffect.debugLog _ => true
  | _ => false

/-- Number of provider invocations in an effect trace. -/
def providerCallCount {V : Type} (t : List (TelemetryEffect V)) : Nat :=
  t.countP isProviderCall

/-- Number of diagnostic log outputs in an effect trace. -/
def debugLogCount {V : Type} (t : List (TelemetryEffect V)) : Nat :=
  t.countP isDebugLog

/-- The error contexts forwarded to the provider in an effect trace, in
order. -/
def trackErrorCalls {V : Type} (t : List (TelemetryEffect V)) :
    List (ErrorContext V) :=
  t.filterMap fun e =>
    match e with
    | TelemetryEffect.callTrackError c => some c
    | _ => none

/-- Number of error-listener registrations in an effect trace. -/
def addListenerCount {V : Type} (t : List (TelemetryEffect V)) : Nat :=
  t.countP fun e =>
    match e with
    | TelemetryEffect.addErrorListener => true
    | _ => false

/-- Number of error-listener deregistrations in an effect trace. -/
def removeListenerCount {V : Type} (t : List (TelemetryEffect V)) : Nat :=
  t.countP fun e =>
    match e with
    | TelemetryEffect.removeErrorListener => true
    | _ => false

/-- Lifecycle events of the consuming UI element, as the spec describes them:
mounting, unmounting, and a window-level uncaught error (or unhandled
rejection) carrying a message. -/
inductive LifeEvent where
  | mount
  | unmount
  | uncaughtError (message : String)

/-- Modelled from the spec: one lifecycle step. On mount, the global listener
is registered exactly when `trackErrors` is set; on unmount a registered
listener is released; an uncaught error is routed through `trackError` while
the listener is registered and is invisible otherwise. The state is whether
the listener is currently registered. -/
def stepListener {V : Type} (cfg : TelemetryConfig V) (registered : Bool) :
    LifeEvent → Bool × List (TelemetryEffect V)
  | LifeEvent.mount =>
      if cfg.trackErrors then (true, [TelemetryEffect.addErrorListener])
      else (false, [])
  | LifeEvent.unmount =>
      if registered then (false, [TelemetryEffect.removeErrorListener])
      else (false, [])
  | LifeEvent.uncaughtError m =>
      (registered,
        if registered then trackError cfg (ErrorInput.native m none) [] else [])

/-- Run of the listener state machine over a list of lifecycle events,
collecting all emitted effects. -/
def runLifecycle {V : Type} (cfg : TelemetryConfig V) :
    Bool → List LifeEvent → Bool × List (TelemetryEffect V)
  | registered, [] => (registered, [])
  | registered, e :: es =>
      let s1 := stepListener cfg registered e
      let s2 := runLifecycle cfg s1.1 es
      (s2.1, s1.2 ++ s2.2)

/-- The effect trace of a full lifecycle starting with no listener
registered. -/
def lifecycleTrace {V : Type} (cfg : TelemetryConfig V)
    (evs : List LifeEvent) : List (TelemetryEffect V) :=
  (runLifecycle cfg false evs).2

/-!
Part 2: the `ContentCard` component, embedded from the two source files.
`Enhanced` follows the implementation with image/author/variant/loading/
bookmark/share/progress support; `Basic` follows the implementation with the
common core interface only. A render is embedded as the top-level article
(its `aria-busy` flag) together with the flat list of visible content items
in document order; wrapper elements and styling classes are presentational
glue and are not part of the embedding. Date formatting is delegated by both
implementations to the identical host locale API, so a date item carries the
raw date string.
-/

/-- Severity levels accepted by both `ContentCard` implementations. -/
inductive Severity where
  | Critical
  | High
  | Medium
  | Low
  deriving DecidableEq

/-- Accent colors accepted by both `ContentCard` implementations. They select
hover styling classes only. -/
inductive AccentColor where
  | violet
  | blue
  | green
  | red
  | yellow
  deriving DecidableEq

/-- Variants of the enhanced `ContentCard`. -/
inductive CardVariant where
  | default
  | compact
  | expanded
  deriving DecidableEq

/-- JS truthiness of an optional string prop: absent and empty are falsy. -/
def strTruthy : Option String → Bool
  | none => false
  | some s => !(s == "")

/-- JS truthiness of an optional numeric prop: absent and zero are falsy. -/
def natTruthy : Option Nat → Bool
  | none => false
  | some n => !(n == 0)

/-- A visible content item of a rendered card, in document order. The
`clickable` flag of a tag button records whether an `onTagClick` callback is
wired to it (the button is disabled otherwise). -/
inductive CardItem where
  | progressBar (value : Nat)
  | imageThumb (src : String) (alt : String)
  | featuredBadge
  | severityBadge (s : Severity)
  | statusBadge (text : String)
  | bookmarkButton (pressed : Bool)
  | shareButton
  | linkedTitle (href : String) (text : String)
  | authorRow (name : String) (avatar : Option String)
  | metadataRow (icon : Bool) (text : String)
  | excerptText (text : String)
  | dateMeta (dateString : String)
  | readTimeMeta (minutes : Nat)
  | durationMeta (minutes : Nat)
  | tagButton (tag : String) (clickable : Bool)
  | skeletonBlock
  deriving DecidableEq

/-- A rendered card: the article-level `aria-busy` marking and the visible
content items in document order. -/
structure RenderedCard where
  ariaBusy : Bool
  items : List CardItem
  deriving DecidableEq

namespace Enhanced

/-- Props of the enhanced `ContentCard`, with the TS destructuring defaults.
Callback props are embedded as presence flags; `metadataIcon` likewise. -/
structure ContentCardProps where
  href : String
  title : String
  excerpt : String
  date : Option String := none
  readTime : Option Nat := none
  durationMinutes : Option Nat := none
  tags : List String := []
  onTagClick : Bool := false
  featured : Bool := false
  metadata : Option String := none
  metadataIcon : Bool := false
  severity : Option Severity := none
  status : Option String := none
  accentColor : AccentColor := AccentColor.violet
  animationDelay : Nat := 0
  className : String := ""
  image : Option String := none
  imageAlt : Option String := none
  author : Option String := none
  authorAvatar : Option String := none
  variant : CardVariant := CardVariant.default
  isLoading : Bool := false
  progress : Option Nat := none
  isBookmarked : Bool := false
  onBookmark : Bool := false
  onShare : Bool := false

/-- The loading skeleton of the enhanced card: an optional image block, a
title bar, three text lines and two tag pills, all placeholder blocks. -/
def skeletonItems (props : ContentCardProps) : List CardItem :=
  (if strTruthy props.image then [CardItem.skeletonBlock] else []) ++
    [CardItem.skeletonBlock, CardItem.skeletonBlock, CardItem.skeletonBlock,
      CardItem.skeletonBlock, CardItem.skeletonBlock, CardItem.skeletonBlock]

/-- The progress bar is shown when `progress` is supplied and positive. -/
def progressVisible : Option Nat → Bool
  | none => false
  | some p => decide (0 < p)

/-- The progress-bar block of the enhanced card. -/
def progressItems (props : ContentCardProps) : List CardItem :=
  if progressVisible props.progress then
    [CardItem.progressBar (props.progress.getD 0)]
  else []

/-- The image-thumbnail block of the enhanced card; the alt text falls back
to the title when `imageAlt` is falsy. -/
def imageItems (props : ContentCardProps) : List CardItem :=
  if strTruthy props.image then
    [CardItem.imageThumb (props.image.getD "")
      (if strTruthy props.imageAlt then props.imageAlt.getD "" else props.title)]
  else []

/-- The badges block of the enhanced card: featured, severity, status. -/
def badgeItems (props : ContentCardProps) : List CardItem :=
  (if props.featured then [CardItem.featuredBadge] else []) ++
    ((match props.severity with
      | some s => [CardItem.severityBadge s]
      | none => []) ++
      (if strTruthy props.status then
        [CardItem.statusBadge (props.status.getD "")]
      else []))

/-- The action-buttons block of the enhanced card; the container is shown
when either callback is wired. The bookmark button reflects the current
bookmark state, which on first render equals the prop. -/
def actionItems (props : ContentCardProps) : List CardItem :=
  if props.onBookmark || props.onShare then
    (if props.onBookmark then [CardItem.bookmarkButton props.isBookmarked]
    else []) ++
      (if props.onShare then [CardItem.shareButton] else [])
  else []

/-- The author block of the enhanced card; a falsy avatar shows the
placeholder. -/
def authorItems (props : ContentCardProps) : List CardItem :=
  if strTruthy props.author then
    [CardItem.authorRow (props.author.getD "")
      (if strTruthy props.authorAvatar then props.authorAvatar else none)]
  else []

/-- The metadata block of the enhanced card. -/
def metadataItems (props : ContentCardProps) : List CardItem :=
  if strTruthy props.metadata then
    [CardItem.metadataRow props.metadataIcon (props.metadata.getD "")]
  else []

/-- The date/read-time/duration meta block of the enhanced card. -/
def metaItems (props : ContentCardProps) : List CardItem :=
  if strTruthy props.date || natTruthy props.readTime ||
      natTruthy props.durationMinutes then
    (if strTruthy props.date then [CardItem.dateMeta (props.date.getD "")]
    else []) ++
      ((if natTruthy props.readTime then
          [CardItem.readTimeMeta (props.readTime.getD 0)]
        else []) ++
        (if natTruthy props.durationMinutes then
          [CardItem.durationMeta (props.durationMinutes.getD 0)]
        else []))
  else []

/-- The tag-buttons block of the enhanced card. -/
def tagItems (props : ContentCardProps) : List CardItem :=
  if props.tags.length > 0 then
    props.tags.map fun t => CardItem.tagButton t props.onTagClick
  else []

/-- The enhanced `ContentCard` render. When `isLoading` is set it returns the
`aria-busy` skeleton article and nothing else; otherwise it emits, in
document order: progress bar, image thumbnail, badges (featured, severity,
status), action buttons (bookmark, share), the linked title, the author row,
the metadata row, the excerpt, the date/read-time/duration meta row, and the
tag buttons. -/
def ContentCard (props : ContentCardProps) : RenderedCard :=
  if props.isLoading then
    { ariaBusy := true, items := skeletonItems props }
  else
    { ariaBusy := false
    , items :=
        progressItems props ++
          (imageItems props ++
            (badgeItems props ++
              (actionItems props ++
                (CardItem.linkedTitle props.href props.title ::
                  (authorItems props ++
                    (metadataItems props ++
                      (CardItem.excerptText props.excerpt ::
                        (metaItems props ++ tagItems props)))))))) }

/-- Clicking the tag button for `tag` on the enhanced card: the callback is
invoked with the tag exactly when `onTagClick` is wired; the result is the
list of callback invocation arguments. -/
def clickTag (props : ContentCardProps) (tag : String) : List String :=
  if props.onTagClick then [tag] else []

end Enhanced

namespace Basic

/-- Props of the basic `ContentCard`, with the TS destructuring defaults. -/
structure ContentCardProps where
  href : String
  title : String
  excerpt : String
  date : Option String := none
  readTime : Option Nat := none
  durationMinutes : Option Nat := none
  tags : List String := []
  onTagClick : Bool := false
  featured : Bool := false
  metadata : Option String := none
  metadataIcon : Bool := false
  severity : Option Severity := none
  status : Option String := none
  accentColor : AccentColor := AccentColor.violet
  animationDelay : Nat := 0
  className : String := ""

/-- The badges block of the basic card: featured, severity, status. -/
def badgeItems (props : ContentCardProps) : List CardItem :=
  (if props.featured then [CardItem.featuredBadge] else []) ++
    ((match props.severity with
      | some s => [CardItem.severityBadge s]
      | none => []) ++
      (if strTruthy props.status then
        [CardItem.statusBadge (props.status.getD "")]
      else []))

/-- The metadata block of the basic card. -/
def metadataItems (props : ContentCardProps) : List CardItem :=
  if strTruthy props.metadata then
    [CardItem.metadataRow props.metadataIcon (props.metadata.getD "")]
  else []

/-- The date/read-time/duration meta block of the basic card. -/
def metaItems (props : ContentCardProps) : List CardItem :=
  if strTruthy props.date || natTruthy props.readTime ||
      natTruthy props.durationMinutes then
    (if strTruthy props.date then [CardItem.dateMeta (props.date.getD "")]
    else []) ++
      ((if natTruthy props.readTime then
          [CardItem.readTimeMeta (props.readTime.getD 0)]
        else []) ++
        (if natTruthy props.durationMinutes then
          [CardItem.durationMeta (props.durationMinutes.getD 0)]
        else []))
  else []

/-- The tag-buttons block of the basic card. -/
def tagItems (props : ContentCardProps) : List CardItem :=
  if props.tags.length > 0 then
    props.tags.map fun t => CardItem.tagButton t props.onTagClick
  else []

/-- The basic `ContentCard` render: badges (featured, severity, status), the
linked title, the metadata row, the excerpt, the date/read-time/duration
meta row, and the tag buttons, in document order. -/
def ContentCard (props : ContentCardProps) : RenderedCard :=
  { ariaBusy := false
  , items :=
      badgeItems props ++
        (CardItem.linkedTitle props.href props.title ::
          (metadataItems props ++
            (CardItem.excerptText props.excerpt ::
              (metaItems props ++ tagItems props)))) }

/-- Clicking the tag button for `tag` on the basic card: the callback is
invoked with the tag exactly when `onTagClick` is wired. -/
def clickTag (props : ContentCardProps) (tag : String) : List String :=
  if props.onTagClick then [tag] else []

end Basic

/-- The common interface of the two `ContentCard` implementations: the
fields both props types share. -/
structure CommonProps where
  href : String
  title : String
  excerpt : String
  date : Option String := none
  readTime : Option Nat := none
  durationMinutes : Option Nat := none
  tags : List String := []
  onTagClick : Bool := false
  featured : Bool := false
  metadata : Option String := none
  metadataIcon : Bool := false
  severity : Option Severity := none
  status : Option String := none
  accentColor : AccentColor := AccentColor.violet
  animationDelay : Nat := 0
  className : String := ""

/-- View of common props as enhanced props: every enhanced-only field keeps
its TS destructuring default (no image, no author, default variant, not
loading, no progress, no bookmark or share wiring). -/
def CommonProps.toEnhanced (c : CommonProps) : Enhanced.ContentCardProps :=
  { href := c.href, title := c.title, excerpt := c.excerpt, date := c.date
  , readTime := c.readTime, durationMinutes := c.durationMinutes
  , tags := c.tags, onTagClick := c.onTagClick, featured := c.featured
  , metadata := c.metadata, metadataIcon := c.metadataIcon
  , severity := c.severity, status := c.status, accentColor := c.accentColor
  , animationDelay := c.animationDelay, className := c.className }

/-- View of common props as basic props. -/
def CommonProps.toBasic (c : CommonProps) : Basic.ContentCardProps :=
  { href := c.href, title := c.title, excerpt := c.excerpt, date := c.date
  , readTime := c.readTime, durationMinutes := c.durationMinutes
  , tags := c.tags, onTagClick := c.onTagClick, featured := c.featured
  , metadata := c.metadata, metadataIcon := c.metadataIcon
  , severity := c.severity, status := c.status, accentColor := c.accentColor
  , animationDelay := c.animationDelay, className := c.className }

/-!
Witness fixtures: concrete configurations used to instantiate the theorems
below at evaluable inputs.
-/

/-- A provider whose every operation fails, modelling a throwing custom
provider. -/
def throwingProvider : ProviderImpl Nat :=
  { trackEvent := fun _ _ => Except.error "provider failure"
  , trackError := fun _ => Except.error "provider failure"
  , trackPageView := fun _ => Except.error "provider failure"
  , identify := fun _ _ => Except.error "provider failure" }

/-- A disabled configuration with debug on, as in the DisabledTelemetry
story. -/
def cfgDisabled : TelemetryConfig Nat :=
  { enabled := false, debug := true, provider := defaultProvider Nat
  , defaultProperties := [], trackErrors := false }

/-- An enabled configuration with debug, default properties and error
tracking on. -/
def cfgEnabledDebug : TelemetryConfig Nat :=
  { enabled := true, debug := true, provider := defaultProvider Nat
  , defaultProperties := [("app", 1)], trackErrors := true }

/-- An enabled configuration with the throwing custom provider. -/
def cfgThrowing : TelemetryConfig Nat :=
  { enabled := true, debug := false, provider := throwingProvider
  , defaultProperties := [], trackErrors := false }

/-- An enabled configuration over string-valued properties. -/
def cfgStringEnabled : TelemetryConfig String :=
  { enabled := true, debug := true, provider := defaultProvider String
  , defaultProperties := [], trackErrors := false }

/-- The lifecycle script of the automatic error-capture property: mount, one
uncaught error during the mounted lifetime, unmount, then further uncaught
errors. -/
def lifeScript (m : String) (post : List String) : List LifeEvent :=
  LifeEvent.mount :: LifeEvent.uncaughtError m :: LifeEvent.unmount ::
    post.map LifeEvent.uncaughtError

/-!
Helper lemmas.
-/

/-- A key bound in the front list keeps its binding after appending. -/
theorem lookupProp_append_of_isSome {V : Type} (k : String) (P D : Props V)
    (h : (lookupProp k P).isSome) : lookupProp k (P ++ D) = lookupProp k P := by
  induction P with
  | nil => simp [lookupProp] at h
  | cons hd tl ih =>
      obtain ⟨k2, v⟩ := hd
      by_cases hk : k2 = k
      · simp [lookupProp, hk]
      · rw [List.cons_append]
        simp only [lookupProp, hk, if_false] at h ⊢
        exact ih h

/-- Uncaught errors arriving while the listener is not registered leave no
trace and keep the listener unregistered. -/
theorem runLifecycle_unregistered_uncaught {V : Type} (cfg : TelemetryConfig V)
    (ms : List String) :
    runLifecycle cfg false (ms.map LifeEvent.uncaughtError) = (false, []) := by
  induction ms with
  | nil => rfl
  | cons m ms ih => simp [runLifecycle, stepListener, ih]

/-!
Claim theorems.
-/

/-- C1: with `enabled = false`, each of the four façade operations produces
the empty effect trace — zero provider invocations and no console/debug
output — whatever the debug flag and the rest of the configuration. -/
theorem disabled_is_total_short_circuit {V : Type} (cfg : TelemetryConfig V)
    (hoff : cfg.enabled = false) (name userId : String)
    (props pv traits extra : Props V) (e : ErrorInput V) :
    trackEvent cfg name props = [] ∧ trackError cfg e extra = [] ∧
      trackPageView cfg pv = [] ∧ identify cfg userId traits = [] := by
  refine ⟨?_, ?_, ?_, ?_⟩ <;>
    simp [trackEvent, trackError, trackPageView, identify, hoff]

/-- Witness for C1 at the disabled, debug-on configuration. -/
theorem disabled_is_total_short_circuit_witness :
    cfgDisabled.enabled = false ∧
      (trackEvent cfgDisabled "button_clicked" [("button", 1)] = [] ∧
        trackError cfgDisabled (ErrorInput.native "X" none) [] = [] ∧
        trackPageView cfgDisabled [("path", 2)] = [] ∧
        identify cfgDisabled "user-1" [] = []) :=
  ⟨rfl, disabled_is_total_short_circuit cfgDisabled rfl "button_clicked"
    "user-1" [("button", 1)] [("path", 2)] [] [] (ErrorInput.native "X" none)⟩

/-- C2: when the configured provider throws on `trackEvent`, the façade
`trackEvent` still returns normally — the exception is swallowed and never
reaches the caller. -/
theorem provider_exception_swallowed {V : Type} (cfg : TelemetryConfig V)
    (name : String) (props : Props V) (msg : String)
    (hthrow : cfg.provider.trackEvent name
      (mergeProps cfg.defaultProperties props) = Except.error msg) :
    dispatchTrackEvent cfg name props = Except.ok () := by
  by_cases h : cfg.enabled <;>
    simp [dispatchTrackEvent, h, hthrow, swallowProviderResult]

/-- Witness for C2 at the configuration with the throwing provider. -/
theorem provider_exception_swallowed_witness :
    cfgThrowing.provider.trackEvent "custom_event"
        (mergeProps cfgThrowing.defaultProperties []) =
        Except.error "provider failure" ∧
      dispatchTrackEvent cfgThrowing "custom_event" [] = Except.ok () :=
  ⟨rfl, provider_exception_swallowed cfgThrowing "custom_event" []
    "provider failure" rfl⟩

/-- C3: `trackEvent` on an enabled façade forwards the merged map to the
provider, and on any key bound in both the defaults and the call-site
properties the merged value is the call-site value. -/
theorem trackEvent_merges_call_site_wins {V : Type} (cfg : TelemetryConfig V)
    (hon : cfg.enabled = true) (name k : String) (props : Props V) (v w : V)
    (hP : lookupProp k props = some v)
    (_hD : lookupProp k cfg.defaultProperties = some w) :
    TelemetryEffect.callTrackEvent name (mergeProps cfg.defaultProperties props)
        ∈ trackEvent cfg name props ∧
      lookupProp k (mergeProps cfg.defaultProperties props) = some v := by
  constructor
  · simp [trackEvent, hon]
  · have hkeep := lookupProp_append_of_isSome k props cfg.defaultProperties
      (by simp [hP])
    rw [mergeProps, hkeep, hP]

/-- Witness for C3 at a configuration whose defaults bind the key `app`. -/
theorem trackEvent_merges_call_site_wins_witness :
    cfgEnabledDebug.enabled = true ∧
      lookupProp "app" [("app", 2)] = some 2 ∧
      lookupProp "app" cfgEnabledDebug.defaultProperties = some 1 ∧
      (TelemetryEffect.callTrackEvent "evt"
          (mergeProps cfgEnabledDebug.defaultProperties [("app", 2)])
          ∈ trackEvent cfgEnabledDebug "evt" [("app", 2)] ∧
        lookupProp "app"
          (mergeProps cfgEnabledDebug.defaultProperties [("app", 2)]) =
          some 2) :=
  ⟨rfl, by decide, by decide,
    trackEvent_merges_call_site_wins cfgEnabledDebug rfl "evt" "app"
      [("app", 2)] 2 1 (by decide) (by decide)⟩

/-- C4: with `trackErrors` and `enabled` set, the lifecycle mount, uncaught
error with message m, unmount, further uncaught errors registers the window
listener exactly once, deregisters it exactly once, and routes exactly one
error to the provider — the one raised during the mounted lifetime, with its
normalized context — while the errors after unmount produce no invocation. -/
theorem trackErrors_lifecycle_once {V : Type} (cfg : TelemetryConfig V)
    (htrk : cfg.trackErrors = true) (hon : cfg.enabled = true)
    (m : String) (post : List String) :
    addListenerCount (lifecycleTrace cfg (lifeScript m post)) = 1 ∧
      removeListenerCount (lifecycleTrace cfg (lifeScript m post)) = 1 ∧
      trackErrorCalls (lifecycleTrace cfg (lifeScript m post)) =
        [normalizeError (ErrorInput.native m none) []] := by
  have hpost := runLifecycle_unregistered_uncaught cfg post
  by_cases hdbg : cfg.debug <;>
    simp [lifecycleTrace, lifeScript, runLifecycle, stepListener, htrk, hon,
      hdbg, hpost, trackError, debugTrace, addListenerCount,
      removeListenerCount, trackErrorCalls, normalizeError]

/-- Witness for C4: a full lifecycle with one mounted-lifetime error and one
error after unmount. -/
theorem trackErrors_lifecycle_once_witness :
    cfgEnabledDebug.trackErrors = true ∧ cfgEnabledDebug.enabled = true ∧
      (addListenerCount (lifecycleTrace cfgEnabledDebug
          (lifeScript "Automatic error tracking test" ["later error"])) = 1 ∧
        removeListenerCount (lifecycleTrace cfgEnabledDebug
          (lifeScript "Automatic error tracking test" ["later error"])) = 1 ∧
        trackErrorCalls (lifecycleTrace cfgEnabledDebug
            (lifeScript "Automatic error tracking test" ["later error"])) =
          [normalizeError
            (ErrorInput.native "Automatic error tracking test" none) []]) :=
  ⟨rfl, rfl, trackErrors_lifecycle_once cfgEnabledDebug rfl rfl
    "Automatic error tracking test" ["later error"]⟩

/-- C5: on an enabled façade, a native error with message X is normalized to
a context whose `message` is X, and the façade forwards exactly that
normalized context to the provider; a plain structured record is likewise
accepted and forwarded normalized. -/
theorem trackError_normalizes_native_message {V : Type}
    (cfg : TelemetryConfig V) (hon : cfg.enabled = true) (m : String)
    (s : Option String) (extra : Props V) (c : ErrorContext V) :
    (normalizeError (ErrorInput.native m s) extra).message = m ∧
      TelemetryEffect.callTrackError (normalizeError (ErrorInput.native m s) extra)
        ∈ trackError cfg (ErrorInput.native m s) extra ∧
      TelemetryEffect.callTrackError
          (normalizeError (ErrorInput.structured c) extra)
        ∈ trackError cfg (ErrorInput.structured c) extra := by
  refine ⟨rfl, ?_, ?_⟩ <;> simp [trackError, hon]

/-- Witness for C5 at a concrete native error and structured record. -/
theorem trackError_normalizes_native_message_witness :
    cfgEnabledDebug.enabled = true ∧
      ((normalizeError (ErrorInput.native "Example error for demonstration"
          (some "stack")) [("userId", 123)]).message =
        "Example error for demonstration" ∧
      TelemetryEffect.callTrackError
          (normalizeError (ErrorInput.native "Example error for demonstration"
            (some "stack")) [("userId", 123)])
        ∈ trackError cfgEnabledDebug
          (ErrorInput.native "Example error for demonstration" (some "stack"))
          [("userId", 123)] ∧
      TelemetryEffect.callTrackError
          (normalizeError (ErrorInput.structured
            { message := "Custom error context" }) [("userId", 123)])
        ∈ trackError cfgEnabledDebug
          (ErrorInput.structured { message := "Custom error context" })
          [("userId", 123)]) :=
  ⟨rfl, trackError_normalizes_native_message cfgEnabledDebug rfl
    "Example error for demonstration" (some "stack") [("userId", 123)]
    { message := "Custom error context" }⟩

/-- C6: with `debug = true` on an enabled façade, each of the four operations
forwards exactly one provider call and additionally emits exactly one
client-side diagnostic log, whatever provider is configured. -/
theorem debug_logs_every_forwarded_call {V : Type} (cfg : TelemetryConfig V)
    (hdbg : cfg.debug = true) (hon : cfg.enabled = true)
    (name userId : String) (props pv traits extra : Props V)
    (e : ErrorInput V) :
    (providerCallCount (trackEvent cfg name props) = 1 ∧
        debugLogCount (trackEvent cfg name props) = 1) ∧
      (providerCallCount (trackError cfg e extra) = 1 ∧
        debugLogCount (trackError cfg e extra) = 1) ∧
      (providerCallCount (trackPageView cfg pv) = 1 ∧
        debugLogCount (trackPageView cfg pv) = 1) ∧
      (providerCallCount (identify cfg userId traits) = 1 ∧
        debugLogCount (identify cfg userId traits) = 1) := by
  simp [trackEvent, trackError, trackPageView, identify, hon, hdbg,
    debugTrace, providerCallCount, debugLogCount, isProviderCall, isDebugLog]

/-- Witness for C6 at the enabled, debug-on configuration. -/
theorem debug_logs_every_forwarded_call_witness :
    cfgEnabledDebug.debug = true ∧ cfgEnabledDebug.enabled = true ∧
      ((providerCallCount (trackEvent cfgEnabledDebug "evt" []) = 1 ∧
          debugLogCount (trackEvent cfgEnabledDebug "evt" []) = 1) ∧
        (providerCallCount (trackError cfgEnabledDebug
            (ErrorInput.native "X" none) []) = 1 ∧
          debugLogCount (trackError cfgEnabledDebug
            (ErrorInput.native "X" none) []) = 1) ∧
        (providerCallCount (trackPageView cfgEnabledDebug [("path", 7)]) = 1 ∧
          debugLogCount (trackPageView cfgEnabledDebug [("path", 7)]) = 1) ∧
        (providerCallCount (identify cfgEnabledDebug "user-1" []) = 1 ∧
          debugLogCount (identify cfgEnabledDebug "user-1" []) = 1)) :=
  ⟨rfl, rfl, debug_logs_every_forwarded_call cfgEnabledDebug rfl rfl "evt"
    "user-1" [] [("path", 7)] [] [] (ErrorInput.native "X" none)⟩

/-- C7: resolving a configuration in which every option is omitted yields
`enabled` true, `debug` false, the built-in no-op/log stub provider, empty
default properties and `trackErrors` false; every façade operation is a
function of the resolved configuration, so the façade behaves accordingly. -/
theorem omitted_options_use_documented_defaults {V : Type} :
    resolveConfig ({} : TelemetryOptions V) =
      { enabled := true, debug := false, provider := defaultProvider V
      , defaultProperties := [], trackErrors := false } := rfl

/-- C8: on an enabled façade, the provider calls in the `identify` trace are
exactly one `identify` invocation carrying the given user id and trait
mapping unchanged. -/
theorem identify_forwards_id_and_traits {V : Type} (cfg : TelemetryConfig V)
    (hon : cfg.enabled = true) (userId : String) (traits : Props V) :
    (identify cfg userId traits).filter isProviderCall =
      [TelemetryEffect.callIdentify userId traits] := by
  by_cases hdbg : cfg.debug <;>
    simp [identify, hon, debugTrace, hdbg, isProviderCall]

/-- Witness for C8 at `identify` of user-1 with an admin role trait. -/
theorem identify_forwards_id_and_traits_witness :
    cfgStringEnabled.enabled = true ∧
      (identify cfgStringEnabled "user-1" [("role", "admin")]).filter
          isProviderCall =
        [TelemetryEffect.callIdentify "user-1" [("role", "admin")]] :=
  ⟨rfl, identify_forwards_id_and_traits cfgStringEnabled rfl "user-1"
    [("role", "admin")]⟩

/-- C9: when `isLoading` is set, the enhanced card renders the article marked
`aria-busy` whose content consists of placeholder blocks only — no title,
excerpt, badge, tag, author or action item appears, so no tag, bookmark or
share callback is reachable from the rendered output. -/
theorem isLoading_renders_skeleton_only (props : Enhanced.ContentCardProps)
    (hload : props.isLoading = true) :
    (Enhanced.ContentCard props).ariaBusy = true ∧
      ∀ i ∈ (Enhanced.ContentCard props).items, i = CardItem.skeletonBlock := by
  constructor
  · simp [Enhanced.ContentCard, hload]
  · intro i hi
    by_cases himg : strTruthy props.image <;>
      simp [Enhanced.ContentCard, hload, Enhanced.skeletonItems, himg] at hi <;>
      simp [hi]

/-- Witness for C9 at a loading card with every content prop populated. -/
theorem isLoading_renders_skeleton_only_witness :
    ({ href := "/example", title := "Example", excerpt := "Excerpt"
      , tags := ["React"], onTagClick := true, featured := true
      , onBookmark := true, onShare := true, isLoading := true } :
        Enhanced.ContentCardProps).isLoading = true ∧
      ((Enhanced.ContentCard
          { href := "/example", title := "Example", excerpt := "Excerpt"
          , tags := ["React"], onTagClick := true, featured := true
          , onBookmark := true, onShare := true, isLoading := true }).ariaBusy =
          true ∧
        ∀ i ∈ (Enhanced.ContentCard
            { href := "/example", title := "Example", excerpt := "Excerpt"
            , tags := ["React"], onTagClick := true, featured := true
            , onBookmark := true, onShare := true, isLoading := true }).items,
          i = CardItem.skeletonBlock) :=
  ⟨rfl, isLoading_renders_skeleton_only
    { href := "/example", title := "Example", excerpt := "Excerpt"
    , tags := ["React"], onTagClick := true, featured := true
    , onBookmark := true, onShare := true, isLoading := true } rfl⟩

/-- C10: on the common interface — every enhanced-only option left at its
destructuring default — the enhanced card renders exactly the same visible
content items, in the same order, as the basic card (badges, linked title,
metadata row, excerpt, date/time meta, tag buttons), and a tag click invokes
the callback identically on both. -/
theorem enhanced_matches_basic_on_common_props (c : CommonProps) :
    (Enhanced.ContentCard c.toEnhanced).items =
        (Basic.ContentCard c.toBasic).items ∧
      ∀ t : String, Enhanced.clickTag c.toEnhanced t = Basic.clickTag c.toBasic t :=
  ⟨rfl, fun _ => rfl⟩
